import Mathlib

/-!
Shallow embedding of the task-management core of the `crehana_fastapi`
repository: the domain value objects (`app/domain/value_objects.py`), the
`Task` domain entity (`app/domain/models/task.py`), the repository layer
(`app/infrastructure/db/repositories.py`) over an explicit in-memory
database state, and the use cases `list_tasks`
(`app/use_cases/task/list_tasks.py`), `create_task_list`
(`app/use_cases/task_list/create_task_list.py`) and `change_task_status`
(`app/use_cases/task/change_task_status.py`), plus the mock notification
service (`app/services/notification.py`).

Python `datetime` timestamps are modelled as natural numbers, with the
current time (`datetime.now()`) passed in explicitly. Python floats are
modelled as rationals. Exceptions are modelled with `Except`.
-/

set_option autoImplicit false

namespace Crehana

/-- `TaskStatus` enum from `app/domain/value_objects.py`. -/
inductive TaskStatus where
  | pending
  | in_progress
  | completed
deriving DecidableEq, Repr

/-- `TaskPriority` enum from `app/domain/value_objects.py`. -/
inductive TaskPriority where
  | low
  | medium
  | high
deriving DecidableEq, Repr

/-- The domain error taxonomy of `app/exceptions/base.py`, together with
`invalidTransition` for the `ValueError("Invalid status transition ...")`
raised by `Task.change_status` (the spec's `InvalidTransitionError`). -/
inductive DomainError where
  | notFound
  | validationError
  | conflict
  | invalidTransition
deriving DecidableEq, Repr

/-- Model of Python `str.strip()`: remove leading and trailing whitespace
characters. -/
def pyStrip (s : String) : String :=
  String.mk (((s.data.dropWhile Char.isWhitespace).reverse.dropWhile Char.isWhitespace).reverse)

/-- `TaskTitle` value object (`app/domain/value_objects.py`): a pydantic
model whose `value` field carries `min_length=1, max_length=200` constraints
(checked on the raw input string) and an after-validator that rejects
strings that are empty after stripping and stores the stripped string. -/
structure TaskTitle where
  value : String
deriving DecidableEq, Repr

/-- Pydantic validation of `TaskTitle`: the `Field` length constraints run
on the raw string, then `validate_title` strips and rejects blank input. -/
def TaskTitle.mk? (s : String) : Except DomainError TaskTitle :=
  if s.length < 1 ∨ s.length > 200 then .error .validationError
  else if pyStrip s = "" then .error .validationError
  else .ok ⟨pyStrip s⟩

/-- `TaskListName` value object (`app/domain/value_objects.py`): same shape
as `TaskTitle` with `min_length=1, max_length=100`. -/
structure TaskListName where
  value : String
deriving DecidableEq, Repr

/-- Pydantic validation of `TaskListName`: `Field` length constraints on the
raw string, then `validate_name` strips and rejects blank input. -/
def TaskListName.mk? (s : String) : Except DomainError TaskListName :=
  if s.length < 1 ∨ s.length > 100 then .error .validationError
  else if pyStrip s = "" then .error .validationError
  else .ok ⟨pyStrip s⟩

/-- `CompletionPercentage` value object (`app/domain/value_objects.py`):
pydantic model with `value` constrained by `ge=0, le=100`. -/
structure CompletionPercentage where
  value : ℚ
deriving DecidableEq, Repr

/-- Pydantic validation of `CompletionPercentage(value=...)`. -/
def CompletionPercentage.mk? (v : ℚ) : Except DomainError CompletionPercentage :=
  if 0 ≤ v ∧ v ≤ 100 then .ok ⟨v⟩ else .error .validationError

/-- `CompletionPercentage.calculate_from_tasks` from
`app/domain/value_objects.py`: `0.0` when `total_tasks == 0`, otherwise
`completed_tasks / total_tasks * 100`, passed through the pydantic
constructor (so the `[0,100]` range check applies to the result). -/
def CompletionPercentage.calculate_from_tasks (total_tasks completed_tasks : ℕ) :
    Except DomainError CompletionPercentage :=
  if total_tasks = 0 then CompletionPercentage.mk? 0
  else CompletionPercentage.mk? ((completed_tasks : ℚ) / (total_tasks : ℚ) * 100)

/-- The `Task` domain entity from `app/domain/models/task.py`. Timestamps
are naturals (Python `datetime` values). -/
structure Task where
  title : TaskTitle
  task_list_id : Int
  id : Option Int := none
  description : Option String := none
  status : TaskStatus := .pending
  priority : TaskPriority := .medium
  user_id : Option Int := none
  created_at : Nat
  updated_at : Nat
deriving DecidableEq, Repr

/-- `Task.__post_init__` (`app/domain/models/task.py`): construct a task,
filling a missing `created_at` with the current time `now` and a missing
`updated_at` with the (resulting) `created_at`. -/
def Task.post_init (title : TaskTitle) (task_list_id : Int) (id : Option Int)
    (description : Option String) (status : TaskStatus) (priority : TaskPriority)
    (user_id : Option Int) (created_at? updated_at? : Option Nat) (now : Nat) : Task :=
  let c := created_at?.getD now
  { title := title, task_list_id := task_list_id, id := id,
    description := description, status := status, priority := priority,
    user_id := user_id, created_at := c, updated_at := updated_at?.getD c }

/-- `Task._is_valid_status_transition` (`app/domain/models/task.py`): the
fixed `valid_transitions` lookup table. -/
def Task.is_valid_status_transition (from_status to_status : TaskStatus) : Bool :=
  let valid_transitions : List TaskStatus :=
    match from_status with
    | .pending => [.in_progress, .completed]
    | .in_progress => [.pending, .completed]
    | .completed => [.pending, .in_progress]
  valid_transitions.contains to_status

/-- `Task.change_status` (`app/domain/models/task.py`): raises `ValueError`
(`invalidTransition`) when the transition table rejects the pair, otherwise
sets the status and refreshes `updated_at` to the current time `now`. -/
def Task.change_status (t : Task) (new_status : TaskStatus) (now : Nat) :
    Except DomainError Task :=
  if ¬ Task.is_valid_status_transition t.status new_status then
    .error .invalidTransition
  else
    .ok { t with status := new_status, updated_at := now }

/-- `Task.assign_to_user` (`app/domain/models/task.py`). -/
def Task.assign_to_user (t : Task) (uid : Int) (now : Nat) : Task :=
  { t with user_id := some uid, updated_at := now }

/-- `Task.unassign_user` (`app/domain/models/task.py`). -/
def Task.unassign_user (t : Task) (now : Nat) : Task :=
  { t with user_id := none, updated_at := now }

/-- `Task.update_title` (`app/domain/models/task.py`). -/
def Task.update_title (t : Task) (new_title : TaskTitle) (now : Nat) : Task :=
  { t with title := new_title, updated_at := now }

/-- `Task.update_description` (`app/domain/models/task.py`). -/
def Task.update_description (t : Task) (new_description : Option String) (now : Nat) : Task :=
  { t with description := new_description, updated_at := now }

/-- `Task.change_priority` (`app/domain/models/task.py`). -/
def Task.change_priority (t : Task) (new_priority : TaskPriority) (now : Nat) : Task :=
  { t with priority := new_priority, updated_at := now }

/-- `Task.is_completed` (`app/domain/models/task.py`). -/
def Task.is_completed (t : Task) : Bool := t.status = TaskStatus.completed

/-- `Task.is_assigned` (`app/domain/models/task.py`). -/
def Task.is_assigned (t : Task) : Bool := t.user_id.isSome

/-- The successful lifecycle mutations of `Task`
(`app/domain/models/task.py`), gathered so a single statement can quantify
over every mutating operation. -/
inductive TaskMutation where
  | changeStatus (s : TaskStatus)
  | assign (uid : Int)
  | unassign
  | updateTitle (t : TaskTitle)
  | updateDescription (d : Option String)
  | changePriority (p : TaskPriority)
deriving DecidableEq, Repr

/-- Dispatch a `TaskMutation` to the corresponding `Task` method, passing
the current time `now`. Only `change_status` can fail. -/
def Task.applyMutation (t : Task) (m : TaskMutation) (now : Nat) : Except DomainError Task :=
  match m with
  | .changeStatus s => t.change_status s now
  | .assign uid => .ok (t.assign_to_user uid now)
  | .unassign => .ok (t.unassign_user now)
  | .updateTitle ti => .ok (t.update_title ti now)
  | .updateDescription d => .ok (t.update_description d now)
  | .changePriority p => .ok (t.change_priority p now)

/-- A row of the `tasks` table (`app/infrastructure/db/models/task.py`),
with the columns the use cases under study read or write. -/
structure DbTask where
  id : Int
  title : String
  task_list_id : Int
  status : TaskStatus
  priority : TaskPriority
  user_id : Option Int
deriving DecidableEq, Repr

/-- A row of the `task_lists` table
(`app/infrastructure/db/models/task_list.py`). -/
structure DbTaskList where
  id : Int
  name : String
deriving DecidableEq, Repr

/-- The database state seen by the repositories: the `task_lists` and
`tasks` tables, rows in insertion order (the order SQLAlchemy queries
return them in without an ORDER BY, as used by the code). -/
structure Db where
  task_lists : List DbTaskList
  tasks : List DbTask
deriving DecidableEq, Repr

/-- `BaseRepository.get_by_id` for `TaskListRepository`
(`app/infrastructure/db/repositories.py`): `query.filter(id == ...).first()`. -/
def TaskListRepository.get_by_id (db : Db) (entity_id : Int) : Option DbTaskList :=
  (db.task_lists.filter (fun tl => tl.id = entity_id)).head?

/-- `TaskListRepository.get_by_name`
(`app/infrastructure/db/repositories.py`): `query.filter(name == ...).first()`. -/
def TaskListRepository.get_by_name (db : Db) (name : String) : Option DbTaskList :=
  (db.task_lists.filter (fun tl => tl.name = name)).head?

/-- `TaskRepository.get_by_task_list_id`
(`app/infrastructure/db/repositories.py`): filter on `task_list_id`, then
`offset(skip).limit(limit)`; the Python defaults are `skip=0, limit=100`. -/
def TaskRepository.get_by_task_list_id (db : Db) (task_list_id : Int)
    (skip : Nat := 0) (limit : Nat := 100) : List DbTask :=
  (((db.tasks.filter (fun t => t.task_list_id = task_list_id)).drop skip).take limit)

/-- `TaskRepository.get_tasks_with_filters`
(`app/infrastructure/db/repositories.py`): conjunctively apply each filter
that is present, then `offset(skip).limit(limit)`. -/
def TaskRepository.get_tasks_with_filters (db : Db)
    (task_list_id : Option Int) (user_id : Option Int)
    (status : Option TaskStatus) (priority : Option TaskPriority)
    (skip limit : Nat) : List DbTask :=
  let q : List DbTask := db.tasks
  let q : List DbTask := match task_list_id with
    | some v => q.filter (fun t => t.task_list_id = v)
    | none => q
  let q : List DbTask := match user_id with
    | some v => q.filter (fun t => t.user_id = some v)
    | none => q
  let q : List DbTask := match status with
    | some v => q.filter (fun t => t.status = v)
    | none => q
  let q : List DbTask := match priority with
    | some v => q.filter (fun t => t.priority = v)
    | none => q
  (q.drop skip).take limit

/-- Round half to even on a rational, the tie-breaking Python's `round`
uses. -/
def roundHalfEven (q : ℚ) : ℤ :=
  if Int.fract q = 1 / 2 then (if ⌊q⌋ % 2 = 0 then ⌊q⌋ else ⌈q⌉) else round q

/-- Model of Python `round(x, 2)`: round to two decimal places. -/
def pyRound2 (q : ℚ) : ℚ := (roundHalfEven (q * 100) : ℚ) / 100

/-- The repository accesses `list_tasks` can perform, recorded in order so
that statements about "no further queries" are expressible. -/
inductive RepoAccess where
  | taskListGetById (id : Int)
  | taskGetTasksWithFilters (task_list_id : Option Int) (user_id : Option Int)
      (status : Option TaskStatus) (priority : Option TaskPriority) (skip limit : Nat)
  | taskGetByTaskListId (id : Int) (skip limit : Nat)
deriving DecidableEq, Repr

/-- The dictionary returned by `list_tasks`
(`app/use_cases/task/list_tasks.py`). -/
structure ListTasksResult where
  tasks : List DbTask
  total : Nat
  completed : Nat
  percent_complete : ℚ
  pagination_skip : Nat
  pagination_limit : Nat
  pagination_returned : Nat
deriving DecidableEq, Repr

/-- `list_tasks` (`app/use_cases/task/list_tasks.py`): check the task list
exists (raising `NotFoundException` otherwise), fetch the filtered page,
re-fetch the list's tasks with `get_by_task_list_id` (Python default
`skip=0, limit=100`) for the aggregate counts, and compute
`round(percent, 2)`. The second component records every repository access
performed, in order. -/
def list_tasks (db : Db) (task_list_id : Int)
    (status : Option TaskStatus) (priority : Option TaskPriority)
    (user_id : Option Int) (skip limit : Nat) :
    Except DomainError ListTasksResult × List RepoAccess :=
  match TaskListRepository.get_by_id db task_list_id with
  | none => (.error .notFound, [.taskListGetById task_list_id])
  | some _ =>
    let tasks := TaskRepository.get_tasks_with_filters db (some task_list_id)
      user_id status priority skip limit
    let all_tasks := TaskRepository.get_by_task_list_id db task_list_id
    let total := all_tasks.length
    let completed := (all_tasks.filter (fun t => t.status = TaskStatus.completed)).length
    let percent_complete : ℚ := if total ≠ 0 then (completed : ℚ) / (total : ℚ) * 100 else 0
    (.ok { tasks := tasks, total := total, completed := completed,
           percent_complete := pyRound2 percent_complete,
           pagination_skip := skip, pagination_limit := limit,
           pagination_returned := tasks.length },
     [.taskListGetById task_list_id,
      .taskGetTasksWithFilters (some task_list_id) user_id status priority skip limit,
      .taskGetByTaskListId task_list_id 0 100])

/-- `create_task_list` (`app/use_cases/task_list/create_task_list.py`):
`get_by_name` first; on a hit raise `ConflictException` (leaving the
database untouched), otherwise construct the row (the store assigns
`new_id`) and persist it via `BaseRepository.create` (append + commit). -/
def create_task_list (db : Db) (name : String) (new_id : Int) :
    Except DomainError DbTaskList × Db :=
  match TaskListRepository.get_by_name db name with
  | some _ => (.error .conflict, db)
  | none =>
    let task_list : DbTaskList := { id := new_id, name := name }
    (.ok task_list, { db with task_lists := db.task_lists ++ [task_list] })

/-- Set the status of the first row with the given id, as mutating the ORM
object returned by `query.filter(Task.id == task_id).first()` and
committing does. -/
def setStatusOfFirst (tasks : List DbTask) (task_id : Int) (status : TaskStatus) :
    List DbTask :=
  match tasks with
  | [] => []
  | t :: rest =>
    if t.id = task_id then { t with status := status } :: rest
    else t :: setStatusOfFirst rest task_id status

/-- `change_task_status` (`app/use_cases/task/change_task_status.py`): look
the task up by id; if found, set `task.status = status` with no transition
validation, commit, and return the task; if not found, return `None`. -/
def change_task_status (db : Db) (task_id : Int) (status : TaskStatus) :
    Option DbTask × Db :=
  match (db.tasks.filter (fun t => t.id = task_id)).head? with
  | none => (none, db)
  | some t =>
    (some { t with status := status },
     { db with tasks := setStatusOfFirst db.tasks task_id status })

/-- A user row (`app/infrastructure/db/models/user.py`), as read by the
notification service. -/
structure DbUser where
  id : Int
  email : String
  name : Option String
deriving DecidableEq, Repr

/-- `EmailNotificationService.send_task_assignment_notification`
(`app/services/notification.py`): everything inside the `try` block —
formatting the mock email and logging it — is modelled by the `render`
computation, which may fail (a raised exception is an `Except.error`); the
`except` clause turns any failure into the return value `False`. -/
def send_task_assignment_notification
    (render : DbTask → DbUser → Except String String)
    (task : DbTask) (assigned_user : DbUser) : Bool :=
  match render task assigned_user with
  | .ok _ => true
  | .error _ => false

/-- `EmailNotificationService.send_task_unassignment_notification`
(`app/services/notification.py`): same try/except shape as assignment. -/
def send_task_unassignment_notification
    (render : DbTask → DbUser → Except String String)
    (task : DbTask) (unassigned_user : DbUser) : Bool :=
  match render task unassigned_user with
  | .ok _ => true
  | .error _ => false

/-- `EmailNotificationService.send_task_status_change_notification`
(`app/services/notification.py`): with no assigned user it logs a debug
line and returns `True` before entering the `try` block; otherwise the
try/except around the mock email (`render`) returns `True` on success and
`False` on any failure. -/
def send_task_status_change_notification
    (render : DbTask → String → DbUser → Except String String)
    (task : DbTask) (old_status : String) (assigned_user : Option DbUser) : Bool :=
  match assigned_user with
  | none => true
  | some u =>
    match render task old_status u with
    | .ok _ => true
    | .error _ => false

/-- `true` exactly when the computation did not raise. -/
def exceptOk {ε α : Type} (e : Except ε α) : Bool :=
  match e with
  | .ok _ => true
  | .error _ => false

/-- A concrete task title for witnesses. -/
def sampleTitle : TaskTitle := ⟨"Fix bug"⟩

/-- A concrete task for witnesses, built through `Task.post_init` with both
timestamps defaulted at time `5`. -/
def sampleTask : Task :=
  Task.post_init sampleTitle 1 none none .pending .medium none none none 5

/-- A database whose only task list (id 1) owns 101 tasks, all completed. -/
def c2Db : Db :=
  { task_lists := [{ id := 1, name := "Sprint 1" }],
    tasks := (List.range 101).map (fun i =>
      { id := (i : Int), title := "T", task_list_id := 1,
        status := .completed, priority := .medium, user_id := none }) }

/-- A 101-character string whose stripped form has exactly 100 characters. -/
def c4BadName : String := " " ++ String.mk (List.replicate 100 'a')

/-- A 100-character string with no surrounding whitespace. -/
def c4ExactName : String := String.mk (List.replicate 100 'a')

/-- A database with one task list and one pending task, for witnesses. -/
def sampleDb : Db :=
  { task_lists := [{ id := 1, name := "Sprint 1" }],
    tasks := [{ id := 7, title := "Fix bug", task_list_id := 1,
                status := .pending, priority := .medium, user_id := none }] }

/-- C1: for every task and every pair of statuses, `change_status` succeeds
iff the target status is in the fixed successor set of the current status
(pending ↦ {in_progress, completed}, in_progress ↦ {pending, completed},
completed ↦ {pending, in_progress}); every self-transition fails with the
invalid-transition error, and on success the task's status equals the
requested status. -/
theorem c1_change_status_transition_table (t : Task) (s : TaskStatus) (now : Nat) :
    (exceptOk (t.change_status s now) = true ↔
      (match t.status with
       | .pending => s = .in_progress ∨ s = .completed
       | .in_progress => s = .pending ∨ s = .completed
       | .completed => s = .pending ∨ s = .in_progress)) ∧
    (s = t.status → t.change_status s now = .error .invalidTransition) ∧
    (∀ t', t.change_status s now = .ok t' → t'.status = s) := by
  obtain ⟨ti, tl, i, d, st, p, u, c, up⟩ := t
  cases st <;> cases s <;>
    simp [Task.change_status, Task.is_valid_status_transition, exceptOk]

/-- Witness for C1 at a concrete task: the self-transition pending→pending
fails and pending→in_progress succeeds. -/
theorem c1_witness :
    sampleTask.change_status TaskStatus.pending 6 = .error .invalidTransition ∧
    exceptOk (sampleTask.change_status TaskStatus.in_progress 6) = true :=
  ⟨(c1_change_status_transition_table sampleTask .pending 6).2.1 rfl,
   (c1_change_status_transition_table sampleTask .in_progress 6).1.mpr (Or.inl rfl)⟩

/-- C7: assigning a task to any user and then unassigning it leaves
`user_id` at `none` and leaves the title, priority and status exactly as
they were before the two operations. -/
theorem c7_assign_then_unassign_frame (t : Task) (uid : Int) (now1 now2 : Nat) :
    ((t.assign_to_user uid now1).unassign_user now2).user_id = none ∧
    ((t.assign_to_user uid now1).unassign_user now2).title = t.title ∧
    ((t.assign_to_user uid now1).unassign_user now2).priority = t.priority ∧
    ((t.assign_to_user uid now1).unassign_user now2).status = t.status := by
  simp [Task.assign_to_user, Task.unassign_user]

/-- C9: each notification operation is a total boolean function — internal
failures of the mock-email body (the `render` computation) are caught and
reported as `false`, success as `true`, and a status-change notification
with no assigned user short-circuits to `true` without running the body. -/
theorem c9_notification_port (rA rU : DbTask → DbUser → Except String String)
    (rS : DbTask → String → DbUser → Except String String)
    (task : DbTask) (u : DbUser) (old_status : String) :
    send_task_assignment_notification rA task u = exceptOk (rA task u) ∧
    send_task_unassignment_notification rU task u = exceptOk (rU task u) ∧
    send_task_status_change_notification rS task old_status none = true ∧
    send_task_status_change_notification rS task old_status (some u) =
      exceptOk (rS task old_status u) := by
  refine ⟨?_, ?_, rfl, ?_⟩
  · unfold send_task_assignment_notification exceptOk
    cases rA task u <;> rfl
  · unfold send_task_unassignment_notification exceptOk
    cases rU task u <;> rfl
  · cases h : rS task old_status u <;>
      simp [send_task_status_change_notification, exceptOk, h]

/-- C6: a task built through `__post_init__` with `updated_at` defaulted
satisfies `created_at ≤ updated_at`; every successful lifecycle mutation
run at a time strictly after the task's `updated_at` strictly increases
`updated_at`, preserves `created_at`, and preserves the
`created_at ≤ updated_at` invariant. -/
theorem c6_updated_at_invariant :
    (∀ (ti : TaskTitle) (tlid : Int) (i : Option Int) (d : Option String)
       (st : TaskStatus) (p : TaskPriority) (u : Option Int)
       (created? : Option Nat) (now : Nat),
      (Task.post_init ti tlid i d st p u created? none now).created_at ≤
        (Task.post_init ti tlid i d st p u created? none now).updated_at) ∧
    (∀ (t : Task) (m : TaskMutation) (now : Nat) (t' : Task),
      t.created_at ≤ t.updated_at → t.updated_at < now →
      t.applyMutation m now = .ok t' →
      t.updated_at < t'.updated_at ∧ t'.created_at ≤ t'.updated_at ∧
        t'.created_at = t.created_at) := by
  constructor
  · intro ti tlid i d st p u created? now
    simp [Task.post_init]
  · intro t m now t' h1 h2 h3
    cases m with
    | changeStatus s =>
      simp only [Task.applyMutation, Task.change_status] at h3
      split at h3
      · cases h3
      · injection h3 with h3
        subst h3
        exact ⟨h2, le_trans h1 (le_of_lt h2), rfl⟩
    | assign uid =>
      injection h3 with h3
      subst h3
      exact ⟨h2, le_trans h1 (le_of_lt h2), rfl⟩
    | unassign =>
      injection h3 with h3
      subst h3
      exact ⟨h2, le_trans h1 (le_of_lt h2), rfl⟩
    | updateTitle ti =>
      injection h3 with h3
      subst h3
      exact ⟨h2, le_trans h1 (le_of_lt h2), rfl⟩
    | updateDescription d =>
      injection h3 with h3
      subst h3
      exact ⟨h2, le_trans h1 (le_of_lt h2), rfl⟩
    | changePriority p =>
      injection h3 with h3
      subst h3
      exact ⟨h2, le_trans h1 (le_of_lt h2), rfl⟩

/-- Witness for C6: the sample task (constructed at time 5) satisfies the
invariant, and assigning it to user 3 at time 6 strictly bumps
`updated_at` while keeping `created_at`. -/
theorem c6_witness :
    (Task.post_init sampleTitle 1 none none .pending .medium none none none 5).created_at ≤
      (Task.post_init sampleTitle 1 none none .pending .medium none none none 5).updated_at ∧
    sampleTask.updated_at < (sampleTask.assign_to_user 3 6).updated_at ∧
    (sampleTask.assign_to_user 3 6).created_at ≤ (sampleTask.assign_to_user 3 6).updated_at ∧
    (sampleTask.assign_to_user 3 6).created_at = sampleTask.created_at :=
  ⟨c6_updated_at_invariant.1 sampleTitle 1 none none .pending .medium none none 5,
   c6_updated_at_invariant.2 sampleTask (.assign 3) 6 (sampleTask.assign_to_user 3 6)
     (by decide) (by decide) rfl⟩

/-- C5: when `completed ≤ total`, `calculate_from_tasks` succeeds and
returns `0` for an empty list and `completed/total*100` otherwise, the
result always lies in `[0, 100]`, and constructing a
`CompletionPercentage` directly from a value outside `[0, 100]` fails. -/
theorem c5_completion_percentage (total completed : ℕ) (h : completed ≤ total) :
    CompletionPercentage.calculate_from_tasks total completed =
      .ok ⟨if total = 0 then (0 : ℚ) else (completed : ℚ) / (total : ℚ) * 100⟩ ∧
    (∀ cp, CompletionPercentage.calculate_from_tasks total completed = .ok cp →
      0 ≤ cp.value ∧ cp.value ≤ 100) ∧
    (∀ v : ℚ, v < 0 ∨ 100 < v →
      CompletionPercentage.mk? v = .error .validationError) := by
  have hbounds : 0 ≤ (if total = 0 then (0 : ℚ) else (completed : ℚ) / (total : ℚ) * 100) ∧
      (if total = 0 then (0 : ℚ) else (completed : ℚ) / (total : ℚ) * 100) ≤ 100 := by
    by_cases h0 : total = 0
    · simp [h0]
    · have hpos : (0 : ℚ) < (total : ℚ) := by exact_mod_cast Nat.pos_of_ne_zero h0
      have hd : (completed : ℚ) / (total : ℚ) ≤ 1 :=
        (div_le_one hpos).mpr (by exact_mod_cast h)
      have h1 : (0 : ℚ) ≤ (completed : ℚ) / (total : ℚ) * 100 := by positivity
      have h2 : (completed : ℚ) / (total : ℚ) * 100 ≤ 100 := by nlinarith
      simp [h0, h1, h2]
  have heq : CompletionPercentage.calculate_from_tasks total completed =
      .ok ⟨if total = 0 then (0 : ℚ) else (completed : ℚ) / (total : ℚ) * 100⟩ := by
    unfold CompletionPercentage.calculate_from_tasks CompletionPercentage.mk?
    by_cases h0 : total = 0 <;> simp [h0] at hbounds ⊢
    · exact ⟨hbounds.1, hbounds.2⟩
  refine ⟨heq, ?_, ?_⟩
  · intro cp hcp
    rw [heq] at hcp
    injection hcp with hcp
    rw [← hcp]
    exact hbounds
  · intro v hv
    unfold CompletionPercentage.mk?
    rw [if_neg]
    rintro ⟨hv0, hv100⟩
    rcases hv with hv | hv
    · exact absurd hv0 (not_le.mpr hv)
    · exact absurd hv100 (not_le.mpr hv)

/-- Witness for C5: the spec's three sample computations and one failing
direct construction. -/
theorem c5_witness :
    CompletionPercentage.calculate_from_tasks 0 0 = .ok ⟨0⟩ ∧
    CompletionPercentage.calculate_from_tasks 4 2 = .ok ⟨50⟩ ∧
    CompletionPercentage.calculate_from_tasks 3 3 = .ok ⟨100⟩ ∧
    CompletionPercentage.mk? 101 = .error .validationError := by
  refine ⟨?_, ?_, ?_, ?_⟩
  · rw [(c5_completion_percentage 0 0 (by decide)).1]
    norm_num
  · rw [(c5_completion_percentage 4 2 (by decide)).1]
    norm_num
  · rw [(c5_completion_percentage 3 3 (by decide)).1]
    norm_num
  · exact (c5_completion_percentage 0 0 (by decide)).2.2 101 (Or.inr (by norm_num))

/-- A string of length zero is the empty string. -/
theorem string_eq_empty_of_length_eq_zero (s : String) (h : s.length = 0) : s = "" := by
  cases s with
  | mk data =>
    simp [String.length] at h
    subst h
    rfl

/-- C4 fails as stated: the claim says construction fails **iff** the
trimmed string is empty or the trimmed string exceeds the max length, but
`c4BadName` (a leading space followed by 100 characters) trims to a
non-empty string of length 100 ≤ 100 and `TaskListName` construction still
fails, because the pydantic length constraints are checked on the raw
string before the strip validator runs. -/
theorem c4_counterexample :
    TaskListName.mk? c4BadName = .error .validationError ∧
    pyStrip c4BadName ≠ "" ∧ (pyStrip c4BadName).length ≤ 100 := by
  exact ⟨rfl, by decide, by decide⟩

/-- C4 (amended): construction of a `TaskTitle` (max 200) or
`TaskListName` (max 100) fails with a validation error iff the **raw**
string exceeds the max length or is empty after stripping; a string that
equals its stripped form and has length exactly the max succeeds; on
success the stored value is the stripped string. -/
theorem c4_title_name_validation (s : String) :
    (exceptOk (TaskTitle.mk? s) = true ↔ ¬(s.length > 200 ∨ pyStrip s = "")) ∧
    (∀ t, TaskTitle.mk? s = .ok t → t.value = pyStrip s) ∧
    (s.length = 200 → pyStrip s = s → exceptOk (TaskTitle.mk? s) = true) ∧
    (exceptOk (TaskListName.mk? s) = true ↔ ¬(s.length > 100 ∨ pyStrip s = "")) ∧
    (∀ n, TaskListName.mk? s = .ok n → n.value = pyStrip s) ∧
    (s.length = 100 → pyStrip s = s → exceptOk (TaskListName.mk? s) = true) := by
  have hempty : s.length < 1 → pyStrip s = "" := by
    intro hlt
    rw [string_eq_empty_of_length_eq_zero s (Nat.lt_one_iff.mp hlt)]
    decide
  have hTiff : exceptOk (TaskTitle.mk? s) = true ↔ ¬(s.length > 200 ∨ pyStrip s = "") := by
    by_cases h1 : s.length < 1 ∨ s.length > 200
    · have hr : s.length > 200 ∨ pyStrip s = "" := by
        rcases h1 with h | h
        · exact Or.inr (hempty h)
        · exact Or.inl h
      have h1' : s.length = 0 ∨ 200 < s.length := by omega
      simp [TaskTitle.mk?, h1', exceptOk, hr]
    · have h1' : ¬ s.length = 0 := by omega
      have h3 : ¬ 200 < s.length := by omega
      by_cases h2 : pyStrip s = ""
      · simp [TaskTitle.mk?, h1', h2, h3, exceptOk]
      · simp [TaskTitle.mk?, h1', h2, h3, exceptOk]
  have hNiff : exceptOk (TaskListName.mk? s) = true ↔ ¬(s.length > 100 ∨ pyStrip s = "") := by
    by_cases h1 : s.length < 1 ∨ s.length > 100
    · have hr : s.length > 100 ∨ pyStrip s = "" := by
        rcases h1 with h | h
        · exact Or.inr (hempty h)
        · exact Or.inl h
      have h1' : s.length = 0 ∨ 100 < s.length := by omega
      simp [TaskListName.mk?, h1', exceptOk, hr]
    · have h1' : ¬ s.length = 0 := by omega
      have h3 : ¬ 100 < s.length := by omega
      by_cases h2 : pyStrip s = ""
      · simp [TaskListName.mk?, h1', h2, h3, exceptOk]
      · simp [TaskListName.mk?, h1', h2, h3, exceptOk]
  refine ⟨hTiff, ?_, ?_, hNiff, ?_, ?_⟩
  · intro t ht
    unfold TaskTitle.mk? at ht
    split at ht
    · cases ht
    · split at ht
      · cases ht
      · injection ht with ht
        subst ht
        rfl
  · intro hl hs
    refine hTiff.mpr ?_
    rintro (h | h)
    · omega
    · rw [hs] at h
      rw [h] at hl
      exact absurd hl (by decide)
  · intro n hn
    unfold TaskListName.mk? at hn
    split at hn
    · cases hn
    · split at hn
      · cases hn
      · injection hn with hn
        subst hn
        rfl
  · intro hl hs
    refine hNiff.mpr ?_
    rintro (h | h)
    · omega
    · rw [hs] at h
      rw [h] at hl
      exact absurd hl (by decide)

/-- Witness for the amended C4: a padded title succeeds with the stripped
value stored, and the 100-character boundary name succeeds. -/
theorem c4_witness :
    exceptOk (TaskTitle.mk? "  Fix bug  ") = true ∧
    (⟨"Fix bug"⟩ : TaskTitle).value = pyStrip "  Fix bug  " ∧
    exceptOk (TaskListName.mk? c4ExactName) = true :=
  ⟨(c4_title_name_validation "  Fix bug  ").1.mpr (by decide),
   (c4_title_name_validation "  Fix bug  ").2.1 ⟨"Fix bug"⟩ rfl,
   (c4_title_name_validation c4ExactName).2.2.2.2.2 (by decide) (by decide)⟩

/-- C3: listing tasks of a task list id that matches no task list fails
with the not-found error, and the recorded repository trace is exactly the
single task-list existence lookup — no task query is executed. -/
theorem c3_list_tasks_missing_list (db : Db) (task_list_id : Int)
    (status : Option TaskStatus) (priority : Option TaskPriority)
    (user_id : Option Int) (skip limit : Nat)
    (h : ∀ tl ∈ db.task_lists, tl.id ≠ task_list_id) :
    list_tasks db task_list_id status priority user_id skip limit =
      (.error .notFound, [RepoAccess.taskListGetById task_list_id]) := by
  have hnone : TaskListRepository.get_by_id db task_list_id = none := by
    unfold TaskListRepository.get_by_id
    have hfil : db.task_lists.filter (fun tl => tl.id = task_list_id) = [] := by
      rw [List.filter_eq_nil_iff]
      intro tl htl
      simp [h tl htl]
    rw [hfil]
    rfl
  simp [list_tasks, hnone]

/-- Witness for C3: listing task list 2 in a database that only has task
list 1 errors with just the existence lookup in the trace. -/
theorem c3_witness :
    list_tasks sampleDb 2 none none none 0 100 =
      (.error .notFound, [RepoAccess.taskListGetById 2]) :=
  c3_list_tasks_missing_list sampleDb 2 none none none 0 100 (by decide)

/-- C8: creating a task list whose name is already taken fails with the
conflict error and leaves the database unchanged; creating one with an
unused name succeeds and appends exactly the new list. -/
theorem c8_create_task_list_conflict (db : Db) (name : String) (new_id : Int) :
    ((∃ tl ∈ db.task_lists, tl.name = name) →
      create_task_list db name new_id = (.error .conflict, db)) ∧
    ((∀ tl ∈ db.task_lists, tl.name ≠ name) →
      create_task_list db name new_id =
        (.ok { id := new_id, name := name },
         { db with task_lists := db.task_lists ++ [{ id := new_id, name := name }] })) := by
  constructor
  · rintro ⟨tl, htl, hname⟩
    have hmem : tl ∈ db.task_lists.filter (fun x => x.name = name) := by
      rw [List.mem_filter]
      exact ⟨htl, by simp [hname]⟩
    unfold create_task_list TaskListRepository.get_by_name
    cases hf : db.task_lists.filter (fun x => x.name = name) with
    | nil =>
      rw [hf] at hmem
      cases hmem
    | cons a t => rfl
  · intro h
    have hfil : db.task_lists.filter (fun x => x.name = name) = [] := by
      rw [List.filter_eq_nil_iff]
      intro a ha
      simp [h a ha]
    unfold create_task_list TaskListRepository.get_by_name
    rw [hfil]
    rfl

/-- Witness for C8: re-using the name "Sprint 1" conflicts and changes
nothing; the fresh name "Sprint 2" is persisted. -/
theorem c8_witness :
    create_task_list sampleDb "Sprint 1" 2 = (.error .conflict, sampleDb) ∧
    create_task_list sampleDb "Sprint 2" 2 =
      (.ok { id := 2, name := "Sprint 2" },
       { sampleDb with
           task_lists := sampleDb.task_lists ++ [{ id := 2, name := "Sprint 2" }] }) :=
  ⟨(c8_create_task_list_conflict sampleDb "Sprint 1" 2).1
      ⟨{ id := 1, name := "Sprint 1" }, by decide, rfl⟩,
   (c8_create_task_list_conflict sampleDb "Sprint 2" 2).2 (by decide)⟩

/-- If the first task matching an id exists, its status-updated copy is in
the updated table. -/
theorem mem_setStatusOfFirst (l : List DbTask) (i : Int) (s : TaskStatus) (t0 : DbTask)
    (h : (l.filter (fun t => t.id = i)).head? = some t0) :
    { t0 with status := s } ∈ setStatusOfFirst l i s := by
  induction l with
  | nil => simp [List.filter_nil] at h
  | cons a l ih =>
    by_cases ha : a.id = i
    · rw [List.filter_cons_of_pos (by simp [ha])] at h
      simp only [List.head?_cons, Option.some.injEq] at h
      subst h
      simp [setStatusOfFirst, ha]
    · rw [List.filter_cons_of_neg (by simp [ha])] at h
      simp only [setStatusOfFirst, ha, if_false]
      exact List.mem_cons_of_mem a (ih h)

/-- C10: the `change_task_status` use case performs no transition
validation — for any requested status (the current one included) it
returns the task with that status and persists it; only a missing task id
produces `none`, and the result type has no error case at all. -/
theorem c10_change_task_status_no_validation (db : Db) (task_id : Int) (s : TaskStatus) :
    ((∀ t ∈ db.tasks, t.id ≠ task_id) → change_task_status db task_id s = (none, db)) ∧
    (∀ t0, (db.tasks.filter (fun t => t.id = task_id)).head? = some t0 →
      (change_task_status db task_id s).1 = some { t0 with status := s } ∧
      ({ t0 with status := s } : DbTask).status = s ∧
      { t0 with status := s } ∈ (change_task_status db task_id s).2.tasks) := by
  constructor
  · intro h
    have hfil : db.tasks.filter (fun t => t.id = task_id) = [] := by
      rw [List.filter_eq_nil_iff]
      intro a ha
      simp [h a ha]
    unfold change_task_status
    rw [hfil]
    rfl
  · intro t0 h0
    unfold change_task_status
    rw [h0]
    exact ⟨rfl, rfl, mem_setStatusOfFirst db.tasks task_id s t0 h0⟩

/-- Witness for C10: the self-transition pending→pending on task 7
succeeds through the use case, and a missing task id yields `none`. -/
theorem c10_witness :
    (change_task_status sampleDb 7 TaskStatus.pending).1 =
      some { id := 7, title := "Fix bug", task_list_id := 1,
             status := TaskStatus.pending, priority := TaskPriority.medium,
             user_id := none } ∧
    change_task_status sampleDb 99 TaskStatus.completed = (none, sampleDb) :=
  ⟨((c10_change_task_status_no_validation sampleDb 7 TaskStatus.pending).2
      { id := 7, title := "Fix bug", task_list_id := 1,
        status := TaskStatus.pending, priority := TaskPriority.medium,
        user_id := none } rfl).1,
   (c10_change_task_status_no_validation sampleDb 99 TaskStatus.completed).1 (by decide)⟩

/-- C2 fails on the code: `c2Db` has one task list owning 101 tasks, all
completed, yet `list_tasks` reports `total = 100` and `completed = 100`,
because the aggregate re-fetch `get_by_task_list_id(task_list_id)` uses
the repository's default pagination `skip=0, limit=100` and silently
truncates the "entire unfiltered task set" to its first 100 rows. -/
theorem c2_total_capped_at_100 :
    c2Db.tasks.length = 101 ∧
    (∀ t ∈ c2Db.tasks, t.task_list_id = 1 ∧ t.status = TaskStatus.completed) ∧
    ∃ r, (list_tasks c2Db 1 none none none 0 100).1 = .ok r ∧
      r.total = 100 ∧ r.completed = 100 := by
  refine ⟨by decide, by decide, ⟨_, rfl, by decide, by decide⟩⟩

end Crehana
